import Mathlib

/-!
Verification of the `lang_sam/server.py` prediction-endpoint adapter
(`LangSAMAPI`): a shallow embedding of its `decode_request`, `predict`
and `encode_response` operations, together with theorems about the
claims of the specification.

Modelling conventions:
* Python floats are modelled as exact rationals (`ℚ`); no arithmetic is
  performed on thresholds by the adapter, so exactness is irrelevant to
  every property proved here.
* Byte strings are modelled as `List Nat` with each entry `< 256` where
  it matters.
* External collaborators (the PIL image decoder and the segmentation
  model's forward pass) are parameters of the embedded operations: the
  adapter's behaviour is proved for every behaviour of the collaborator.
* The `LangSAM` model object itself lives outside `server.py`; where its
  behaviour decides a claim it is modelled from the spec (marked
  `Modelled from the spec:` on the definition).
-/

namespace LangSam

/-! ## Request data model -/

/-- An uploaded file field of a multipart form; `content` is the byte
sequence returned by `image_file.file.read()`. -/
structure UploadFile where
  content : List Nat
deriving DecidableEq, Repr

/-- The multipart form of an incoming request, as seen through
`request.get`: each field is either present (with its raw string value,
or the file for `image`) or absent (`none`, Python `None`). -/
structure RawRequest where
  sam_type : Option String
  box_threshold : Option String
  text_threshold : Option String
  text_prompt : Option String
  image : Option UploadFile
deriving DecidableEq, Repr

/-- The decoded parameter record built by `decode_request`
(the dict it returns). -/
structure PredictionRequest where
  sam_type : Option String
  box_threshold : ℚ
  text_threshold : ℚ
  image_bytes : List Nat
  text_prompt : String
deriving DecidableEq, Repr

/-- The two failure kinds `decode_request` can raise (both are Python
`ValueError`s; the spec groups them as `InputError`). -/
inductive InputError where
  /-- `float()` raised on a malformed numeric form field. -/
  | malformedNumeric (field : String) (val : String)
  /-- `raise ValueError("No image file provided in the request.")`. -/
  | missingImage
deriving DecidableEq, Repr

/-! ## A model of Python `float()` on strings

`float(s)` strips whitespace and parses an optional sign, a decimal
mantissa (digits, optionally with a fractional part, or a bare
fractional part) and an optional exponent.  Malformed strings raise
`ValueError`.  (The `inf`/`nan` spellings and digit underscores are not
modelled; no claim depends on them.) -/

/-- Is `c` an ASCII digit? -/
def isDig (c : Char) : Bool := 48 ≤ c.toNat && c.toNat ≤ 57

/-- Numeric value of an ASCII digit. -/
def digitVal (c : Char) : Nat := c.toNat - 48

/-- Value of a digit string, most significant digit first. -/
def natOfDigits (cs : List Char) : Nat :=
  cs.foldl (fun a c => 10 * a + digitVal c) 0

/-- Strip an optional leading sign; returns (isNegative, rest). -/
def parseSign : List Char → Bool × List Char
  | '-' :: cs => (true, cs)
  | '+' :: cs => (false, cs)
  | cs => (false, cs)

/-- ASCII whitespace, as stripped by `float()`. -/
def isSpaceChar (c : Char) : Bool :=
  c = ' ' ∨ c = '\t' ∨ c = '\n' ∨ c = '\r' ∨ c = '\x0b' ∨ c = '\x0c'

/-- Model of Python `float()` applied to a string: `none` models a
`ValueError` (malformed literal), `some q` the parsed value. -/
def pyFloat (s : String) : Option ℚ :=
  let cs := ((s.data.dropWhile isSpaceChar).reverse.dropWhile isSpaceChar).reverse
  let (neg, cs0) := parseSign cs
  let ip := cs0.takeWhile isDig
  let cs1 := cs0.dropWhile isDig
  let (sawDot, cs1') :=
    match cs1 with
    | '.' :: rest => (true, rest)
    | _ => (false, cs1)
  let fp := if sawDot then cs1'.takeWhile isDig else []
  let cs2 := if sawDot then cs1'.dropWhile isDig else cs1'
  if ip = [] ∧ fp = [] then none
  else
    let mag : ℚ := (natOfDigits ip : ℚ) + (natOfDigits fp : ℚ) / (10 : ℚ) ^ fp.length
    let signed := if neg then -mag else mag
    match cs2 with
    | [] => some signed
    | c :: rest =>
      if c = 'e' ∨ c = 'E' then
        let (eneg, rest1) := parseSign rest
        let ed := rest1.takeWhile isDig
        let rest2 := rest1.dropWhile isDig
        if ed = [] ∨ rest2 ≠ [] then none
        else
          let e : ℚ := (10 : ℚ) ^ natOfDigits ed
          some (if eneg then signed / e else signed * e)
      else none

/-! ## decode_request -/

/-- `float(request.get(field, default))`: an absent field yields the
(float) default unchanged; a present field is parsed by `float()`, and a
parse failure is the `ValueError` modelled as `InputError.malformedNumeric`. -/
def parseThreshold (field : String) (v : Option String) (default : ℚ) :
    Except InputError ℚ :=
  match v with
  | none => .ok default
  | some s =>
    match pyFloat s with
    | some q => .ok q
    | none => .error (.malformedNumeric field s)

/-- Embedding of `LangSAMAPI.decode_request`: extract `sam_type` as-is,
parse the two thresholds with defaults `0.3` and `0.25`, default
`text_prompt` to `""`, then require the `image` file field and read its
bytes.  The field order follows the source. -/
def decode_request (r : RawRequest) : Except InputError PredictionRequest := do
  let sam_type := r.sam_type
  let box_threshold ← parseThreshold "box_threshold" r.box_threshold (3 / 10)
  let text_threshold ← parseThreshold "text_threshold" r.text_threshold (1 / 4)
  let text_prompt := r.text_prompt.getD ""
  match r.image with
  | none => .error .missingImage
  | some image_file =>
    .ok { sam_type := sam_type
          box_threshold := box_threshold
          text_threshold := text_threshold
          image_bytes := image_file.content
          text_prompt := text_prompt }

/-! ## The model handle and predict -/

/-- An opaque decoded raster image (the `Image.open(...).convert("RGB")`
result); its contents are never inspected by the adapter. -/
structure PILImage where
  raw : Nat
deriving DecidableEq, Repr

/-- Modelled from the spec: `ModelHandle` — the process-wide `LangSAM`
object (`self.model`, defined in the `lang_sam` package outside
`server.py`), "wrapping the loaded model and its currently configured
variant identifier (model_type)".  Only the variant identifier is
observable to the adapter (`self.model.sam_type`); it is an
`Option String` because `decode_request` passes `sam_type` through
as-is, so it may be `None`. -/
structure ModelHandle where
  sam_type : Option String
deriving DecidableEq, Repr

/-- Modelled from the spec: `self.model.sam.build_model(v)` — the
"construction/rebuild operation parameterized by a variant identifier",
which "rebuild[s] the model in place for the new variant", leaving the
handle's recorded variant equal to the variant just built. -/
def ModelHandle.build_model (_h : ModelHandle) (v : Option String) : ModelHandle :=
  { sam_type := v }

/-- The initial handle: `setup` runs
`self.model = LangSAM(sam_type="sam2.1_hiera_small")`. -/
def setupHandle : ModelHandle := { sam_type := some "sam2.1_hiera_small" }

/-- A single box: four float coordinates (x1, y1, x2, y2). -/
abbrev Box := ℚ × ℚ × ℚ × ℚ

/-- The dynamic type of the `boxes` field of a model result: a plain
numpy array, a torch tensor (whose `.cpu().numpy()` has the same
numeric content), or a value of any other type. -/
inductive BoxesVal where
  | npArray (rows : List Box)
  | torchTensor (rows : List Box)
  | other (descr : String)
deriving DecidableEq, Repr

/-- One per-image result record of the external model's batched predict:
at least a `boxes` field and a `masks` field (whose elements the adapter
never inspects — only `len(results["masks"])` is used). -/
structure ModelResult where
  boxes : BoxesVal
  masks : List Unit
deriving DecidableEq, Repr

/-- The failure kinds `predict` can raise. -/
inductive PredictError where
  /-- `raise ValueError(f"Invalid image data: \x7be\x7d")`. -/
  | invalidImage (msg : String)
  /-- `raise TypeError("Unexpected type for boxes. ...")`. -/
  | typeError (msg : String)
deriving DecidableEq, Repr

/-- The dict returned by `predict`: `\x7b"boxes": boxes\x7d`. -/
structure PredictOutput where
  boxes : List Box
deriving DecidableEq, Repr

/-- The external collaborators of `predict`, universally quantified in
every theorem: `dec` is PIL's `Image.open(...).convert("RGB")` on the
uploaded bytes (`Except.error e` models the caught exception with
message `e`); `model` is the external model's batched predict on a
single-element batch, given the currently built variant, the decoded
image, the text prompt and the two thresholds. -/
structure Collab where
  dec : List Nat → Except String PILImage
  model : Option String → PILImage → String → ℚ → ℚ → ModelResult

/-- The boxes-normalization block of `predict`: a numpy array passes
through, a torch tensor is converted via `.cpu().numpy()` (same numeric
content), anything else raises `TypeError`. -/
def normalize_boxes : BoxesVal → Except PredictError (List Box)
  | .npArray rows => .ok rows
  | .torchTensor rows => .ok rows
  | .other _ =>
    .error (.typeError "Unexpected type for boxes. Expected numpy array or torch tensor.")

/-- The body of `predict` after the variant check: decode the image
(wrapping a failure as `Invalid image data: ...`), run the model on the
single-element batch, take result `[0]`, normalize `boxes`, and return
`\x7b"boxes": boxes\x7d` — in both arms of the empty-masks check. -/
def predictBody (c : Collab) (variant : Option String) (inputs : PredictionRequest) :
    Except PredictError PredictOutput :=
  match c.dec inputs.image_bytes with
  | .error e => .error (.invalidImage ("Invalid image data: " ++ e))
  | .ok image_pil =>
    let results :=
      c.model variant image_pil inputs.text_prompt inputs.box_threshold inputs.text_threshold
    match normalize_boxes results.boxes with
    | .error err => .error err
    | .ok boxes =>
      if results.masks.length = 0 then
        .ok { boxes := boxes }
      else
        .ok { boxes := boxes }

/-- Embedding of `LangSAMAPI.predict`: if `inputs["sam_type"]` differs
from `self.model.sam_type`, rebuild the model for the requested variant
(the second component records the argument of each `build_model` call
made, so "exactly one rebuild" is observable); then run `predictBody`
against the now-current variant. -/
def predict (c : Collab) (st : ModelHandle) (inputs : PredictionRequest) :
    ModelHandle × List (Option String) × Except PredictError PredictOutput :=
  let st' := if inputs.sam_type ≠ st.sam_type then st.build_model inputs.sam_type else st
  let log : List (Option String) := if inputs.sam_type ≠ st.sam_type then [inputs.sam_type] else []
  (st', log, predictBody c st'.sam_type inputs)

/-- A sequence of `predict` calls against the shared handle: returns the
final handle and the concatenated rebuild log. -/
def run (c : Collab) (st : ModelHandle) : List PredictionRequest → ModelHandle × List (Option String)
  | [] => (st, [])
  | r :: rs =>
    let out := predict c st r
    let rest := run c out.1 rs
    (rest.1, out.2.1 ++ rest.2)

/-- Number of variant switches along a sequence of requested variants,
starting from variant `v`: a request counts when its variant differs
from the variant current just before it. -/
def switchCount : Option String → List (Option String) → Nat
  | _, [] => 0
  | v, t :: ts => (if t ≠ v then 1 else 0) + switchCount t ts

/-! ## The `.npy` container format (`np.save` / `np.load`)

`encode_response` serializes the boxes array with `np.save` into an
in-memory buffer.  `np.save`/`np.load` are numpy (external); they are
modelled here at byte level following the NEP-1 `.npy` format, version 1
with the version-2 fallback for oversized headers: magic `\x93NUMPY`,
version, little-endian header length (2 bytes for v1, 4 for v2), the
ASCII header dict `{'descr': ..., 'fortran_order': False, 'shape':
(N, 4), }` padded with spaces and a final newline to 64-byte alignment
of the whole preamble, then the raw element bytes.  The server's boxes
arrays are C-contiguous float arrays of shape (N, 4); element bytes are
carried opaquely (their float interpretation is never needed). -/

/-- The element dtype of the array: float32 (`<f4`) or float64 (`<f8`). -/
inductive Dtype where
  | f4
  | f8
deriving DecidableEq, Repr

/-- Bytes per element. -/
def Dtype.itemsize : Dtype → Nat
  | .f4 => 4
  | .f8 => 8

/-- The dtype's `descr` string as header bytes (`"<f4"` / `"<f8"`). -/
def Dtype.descrBytes : Dtype → List Nat
  | .f4 => [60, 102, 52]
  | .f8 => [60, 102, 56]

/-- A shape-(nrows, 4) numpy float array: dtype, row count, and the raw
C-order element bytes. -/
structure NpyArray where
  dtype : Dtype
  nrows : Nat
  data : List Nat
deriving DecidableEq, Repr

/-- The array is internally consistent: `nrows * 4` elements' worth of
bytes. -/
def NpyArray.WF (a : NpyArray) : Prop :=
  a.data.length = a.nrows * 4 * a.dtype.itemsize

/-- ASCII bytes of a string literal. -/
def strBytes (s : String) : List Nat := s.data.map Char.toNat

/-- The `.npy` magic bytes `\x93NUMPY`. -/
def npyMagic : List Nat := [0x93, 0x4E, 0x55, 0x4D, 0x50, 0x59]

/-- Base-10 digits of `n`, least significant first, with explicit fuel
(structural recursion, so values compute by reduction). -/
def digitsRev (fuel n : Nat) : List Nat :=
  match fuel with
  | 0 => []
  | fuel + 1 => if n = 0 then [] else n % 10 :: digitsRev fuel (n / 10)

/-- Decimal rendering of `n`, most significant digit first, as ASCII
bytes. -/
def renderNat (n : Nat) : List Nat :=
  if n = 0 then [48] else ((digitsRev n n).map (· + 48)).reverse

/-- The header dict literal for a C-contiguous array of shape (n, 4):
`{'descr': '<fK', 'fortran_order': False, 'shape': (n, 4), }`. -/
def headerBody (d : Dtype) (n : Nat) : List Nat :=
  strBytes "\x7b'descr': '" ++ d.descrBytes
    ++ strBytes "', 'fortran_order': False, 'shape': ("
    ++ renderNat n ++ strBytes ", 4), \x7d"

/-- Space padding so that preamble + header dict + padding + newline is
a multiple of 64 bytes. -/
def padTo64 (preambleLen bodyLen : Nat) : Nat :=
  (64 - (preambleLen + bodyLen + 1) % 64) % 64

/-- Two-byte little-endian encoding. -/
def le2 (k : Nat) : List Nat := [k % 256, k / 256 % 256]

/-- Four-byte little-endian encoding. -/
def le4 (k : Nat) : List Nat :=
  [k % 256, k / 256 % 256, k / 256 ^ 2 % 256, k / 256 ^ 3 % 256]

/-- Model of `np.save` on the array: version 1.0 when the padded header
length fits in two bytes, else version 2.0 with a four-byte length;
`none` models numpy's `ValueError` when even the v2 header cannot be
represented. -/
def npSave (a : NpyArray) : Option (List Nat) :=
  let body := headerBody a.dtype a.nrows
  let header1 := body ++ List.replicate (padTo64 10 body.length) 32 ++ [10]
  if header1.length < 2 ^ 16 then
    some (npyMagic ++ [1, 0] ++ le2 header1.length ++ header1 ++ a.data)
  else
    let header2 := body ++ List.replicate (padTo64 12 body.length) 32 ++ [10]
    if header2.length < 2 ^ 32 then
      some (npyMagic ++ [2, 0] ++ le4 header2.length ++ header2 ++ a.data)
    else none

/-- Strip an exact byte-literal prefix, or fail. -/
def stripPre (pre l : List Nat) : Option (List Nat) :=
  if pre.isPrefixOf l then some (l.drop pre.length) else none

/-- Is `b` an ASCII digit byte? -/
def isDigitByte (b : Nat) : Bool := 48 ≤ b && b ≤ 57

/-- Is `b` the ASCII space byte (the header padding)? -/
def isSpaceByte (b : Nat) : Bool := b = 32

/-- Value of a digit-byte string, most significant digit first. -/
def parseDigits (ds : List Nat) : Nat :=
  Nat.ofDigits 10 ((ds.map (· - 48)).reverse)

/-- Recognize the dtype `descr` at the front of the header remainder. -/
def parseDescr (r : List Nat) : Option (Dtype × List Nat) :=
  match stripPre (Dtype.descrBytes .f4) r with
  | some rest => some (Dtype.f4, rest)
  | none =>
    match stripPre (Dtype.descrBytes .f8) r with
    | some rest => some (Dtype.f8, rest)
    | none => none

/-- Parse the header dict of a shape-(n, 4) C-order float array back
into its dtype and row count (the standard reader's header parse,
specialized to the headers this endpoint emits). -/
def parseHeader (h : List Nat) : Option (Dtype × Nat) := do
  let r1 ← stripPre (strBytes "\x7b'descr': '") h
  let dr ← parseDescr r1
  let r3 ← stripPre (strBytes "', 'fortran_order': False, 'shape': (") dr.2
  let ds := r3.takeWhile isDigitByte
  if ds.isEmpty then none
  else
    let r4 ← stripPre (strBytes ", 4), \x7d") (r3.dropWhile isDigitByte)
    if r4.dropWhile isSpaceByte = [10] then some (dr.1, parseDigits ds) else none

/-- Model of `np.load` (the standard numeric-array reader) on the bytes:
check the magic, read the version and the little-endian header length,
parse the header, and require the remaining bytes to be exactly the
array's element bytes. -/
def npLoad (bytes : List Nat) : Option NpyArray := do
  let r1 ← stripPre npyMagic bytes
  match r1 with
  | 1 :: 0 :: a :: b :: rest =>
    let hl := a + 256 * b
    if rest.length < hl then none
    else
      let dn ← parseHeader (rest.take hl)
      let data := rest.drop hl
      if data.length = dn.2 * 4 * dn.1.itemsize then some ⟨dn.1, dn.2, data⟩ else none
  | 2 :: 0 :: a :: b :: c :: e :: rest =>
    let hl := a + 256 * b + 256 ^ 2 * c + 256 ^ 3 * e
    if rest.length < hl then none
    else
      let dn ← parseHeader (rest.take hl)
      let data := rest.drop hl
      if data.length = dn.2 * 4 * dn.1.itemsize then some ⟨dn.1, dn.2, data⟩ else none
  | _ => none

/-- Embedding of `LangSAMAPI.encode_response`: `np.save` the boxes array
into a `BytesIO` buffer and answer its bytes as the response body; a
serialization failure is caught and re-raised as
`ValueError(f"Error encoding boxes: ...")`. -/
def encode_response (boxes : NpyArray) : Except String (List Nat) :=
  match npSave boxes with
  | some body => .ok body
  | none => .error "Error encoding boxes: header does not fit"

/-! ## Concrete instances and alternative bodies used by the theorems -/

/-- A counterexample request for C2: the image field is present (a PNG
signature, so the bytes are decodable) and `text_prompt` is non-null,
but `box_threshold` is the unparsable string `"abc"`. -/
def c2Req : RawRequest :=
  { sam_type := none
    box_threshold := some "abc"
    text_threshold := none
    text_prompt := some "dog"
    image := some ⟨[137, 80, 78, 71, 13, 10, 26, 10]⟩ }

/-- A concrete collaborator whose image decode always succeeds and whose
model always answers an empty numpy boxes array with no masks. -/
def collabOk : Collab :=
  { dec := fun _ => .ok ⟨0⟩
    model := fun _ _ _ _ _ => { boxes := .npArray [], masks := [] } }

/-- A concrete collaborator whose image decode always fails. -/
def collabBadImage : Collab :=
  { dec := fun _ => .error "cannot identify image file"
    model := fun _ _ _ _ _ => { boxes := .npArray [], masks := [] } }

/-- A concrete decoded request. -/
def pr0 : PredictionRequest :=
  { sam_type := none
    box_threshold := 3 / 10
    text_threshold := 1 / 4
    image_bytes := [137, 80, 78, 71]
    text_prompt := "dog" }

/-- The body of `predict` with the empty-masks check removed: the
non-empty-masks arm alone. -/
def predictBodyNoMaskCheck (c : Collab) (variant : Option String)
    (inputs : PredictionRequest) : Except PredictError PredictOutput :=
  match c.dec inputs.image_bytes with
  | .error e => .error (.invalidImage ("Invalid image data: " ++ e))
  | .ok image_pil =>
    let results :=
      c.model variant image_pil inputs.text_prompt inputs.box_threshold inputs.text_threshold
    match normalize_boxes results.boxes with
    | .error err => .error err
    | .ok boxes => .ok { boxes := boxes }

/-- A concrete 1-row float32 array: four 4-byte elements. -/
def npyA0 : NpyArray :=
  { dtype := Dtype.f4
    nrows := 1
    data := [0, 0, 128, 63, 0, 0, 0, 64, 0, 0, 64, 64, 0, 0, 128, 64] }

/-! ## Helper lemmas -/

/-- `parseThreshold` can only fail with a malformed-numeric error naming
its own field. -/
theorem parseThreshold_error_eq {f : String} {v : Option String} {d : ℚ}
    {e : InputError} (h : parseThreshold f v d = .error e) :
    ∃ s, v = some s ∧ pyFloat s = none ∧ e = .malformedNumeric f s := by
  cases v with
  | none => simp [parseThreshold] at h
  | some s =>
    cases hp : pyFloat s with
    | none =>
      refine ⟨s, rfl, hp, ?_⟩
      simp [parseThreshold, hp] at h
      exact h.symm
    | some q => simp [parseThreshold, hp] at h

/-- A present, malformed field makes `parseThreshold` fail with the
malformed-numeric error for that field. -/
theorem parseThreshold_malformed {f : String} {v : Option String} {d : ℚ} {s : String}
    (hv : v = some s) (hp : pyFloat s = none) :
    parseThreshold f v d = .error (.malformedNumeric f s) := by
  simp [parseThreshold, hv, hp]

/-- An absent field makes `parseThreshold` return the default. -/
theorem parseThreshold_default {f : String} {d : ℚ} :
    parseThreshold f none d = .ok d := rfl

/-- `decode_request`, with the monadic plumbing unfolded into its
sequential cases: box threshold, then text threshold, then the image
check. -/
theorem decode_request_eq (r : RawRequest) :
    decode_request r =
      match parseThreshold "box_threshold" r.box_threshold (3 / 10) with
      | .error e => .error e
      | .ok bt =>
        match parseThreshold "text_threshold" r.text_threshold (1 / 4) with
        | .error e => .error e
        | .ok tt =>
          match r.image with
          | none => .error .missingImage
          | some f => .ok ⟨r.sam_type, bt, tt, f.content, r.text_prompt.getD ""⟩ := by
  unfold decode_request
  rcases parseThreshold "box_threshold" r.box_threshold (3 / 10) with e | bt
  · rfl
  · rcases parseThreshold "text_threshold" r.text_threshold (1 / 4) with e | tt
    · rfl
    · rcases r.image with _ | f <;> rfl

/-! ## Claims about decode_request -/

/-- C2, counterexample: a request with the image field present and a
non-null `text_prompt` on which `decode_request` nevertheless raises —
`float("abc")` fails before the image is ever consulted, so "decode()
does not raise" is false as stated. -/
theorem c2_decode_raises_on_malformed_threshold :
    c2Req.image.isSome = true ∧ c2Req.text_prompt ≠ none ∧
      decode_request c2Req = .error (.malformedNumeric "box_threshold" "abc") := by
  refine ⟨rfl, by decide, ?_⟩
  rw [decode_request_eq]
  rw [show c2Req.box_threshold = some "abc" from rfl,
    parseThreshold_malformed rfl (by decide)]

/-- C2 (amended): for every multipart request containing an image and a
non-null `text_prompt`, whose threshold fields — when present — parse as
floats, `decode_request` does not raise, and an absent `box_threshold`
(resp. `text_threshold`) defaults to 0.3 (resp. 0.25). -/
theorem c2_decode_ok_with_defaults (r : RawRequest)
    (himg : r.image.isSome = true)
    (_hp : r.text_prompt ≠ none)
    (hb : ∀ s, r.box_threshold = some s → (pyFloat s).isSome = true)
    (ht : ∀ s, r.text_threshold = some s → (pyFloat s).isSome = true) :
    ∃ pr, decode_request r = .ok pr ∧
      (r.box_threshold = none → pr.box_threshold = 3 / 10) ∧
      (r.text_threshold = none → pr.text_threshold = 1 / 4) := by
  obtain ⟨f, hf⟩ : ∃ f, r.image = some f := by
    cases hi : r.image
    · rw [hi] at himg; cases himg
    · exact ⟨_, rfl⟩
  have hbq : ∃ q, parseThreshold "box_threshold" r.box_threshold (3 / 10) = .ok q ∧
      (r.box_threshold = none → q = 3 / 10) := by
    cases hcb : r.box_threshold with
    | none => exact ⟨3 / 10, rfl, fun _ => rfl⟩
    | some s =>
      obtain ⟨q, hq⟩ := Option.isSome_iff_exists.mp (hb s hcb)
      exact ⟨q, by simp [parseThreshold, hq], fun hn => nomatch hn⟩
  have htq : ∃ q, parseThreshold "text_threshold" r.text_threshold (1 / 4) = .ok q ∧
      (r.text_threshold = none → q = 1 / 4) := by
    cases hct : r.text_threshold with
    | none => exact ⟨1 / 4, rfl, fun _ => rfl⟩
    | some s =>
      obtain ⟨q, hq⟩ := Option.isSome_iff_exists.mp (ht s hct)
      exact ⟨q, by simp [parseThreshold, hq], fun hn => nomatch hn⟩
  obtain ⟨qb, hqb, hqb0⟩ := hbq
  obtain ⟨qt, hqt, hqt0⟩ := htq
  refine ⟨⟨r.sam_type, qb, qt, f.content, r.text_prompt.getD ""⟩, ?_, fun h => hqb0 h, fun h => hqt0 h⟩
  rw [decode_request_eq, hqb, hqt, hf]

/-- C2, witness for the amended theorem at a concrete request with both
thresholds absent. -/
theorem c2_decode_ok_with_defaults_witness :
    ∃ pr, decode_request ⟨some "sam2.1_hiera_small", none, none, some "dog", some ⟨[1, 2, 3]⟩⟩
        = .ok pr ∧
      ((none : Option String) = none → pr.box_threshold = 3 / 10) ∧
      ((none : Option String) = none → pr.text_threshold = 1 / 4) :=
  c2_decode_ok_with_defaults ⟨some "sam2.1_hiera_small", none, none, some "dog", some ⟨[1, 2, 3]⟩⟩
    rfl (by decide) (fun s h => by cases h) (fun s h => by cases h)

/-- C3: a request with no `image` field makes `decode_request` fail with
an `InputError`, whatever the other fields hold (if a threshold is also
malformed the error is the numeric one, still an `InputError`). -/
theorem c3_decode_missing_image_errors (r : RawRequest) (h : r.image = none) :
    ∃ e : InputError, decode_request r = .error e := by
  rw [decode_request_eq]
  rcases hb : parseThreshold "box_threshold" r.box_threshold (3 / 10) with e | bt
  · exact ⟨e, rfl⟩
  · rcases ht : parseThreshold "text_threshold" r.text_threshold (1 / 4) with e | tt
    · exact ⟨e, rfl⟩
    · rw [h]
      exact ⟨.missingImage, rfl⟩

/-- C3, witness at a concrete request whose fields are all absent. -/
theorem c3_decode_missing_image_errors_witness :
    ∃ e : InputError, decode_request ⟨some "x", some "0.5", some "0.5", some "cat", none⟩
      = .error e :=
  c3_decode_missing_image_errors ⟨some "x", some "0.5", some "0.5", some "cat", none⟩ rfl

/-- C8: the thresholds are parsed before the image check — when the
image is missing and a threshold field is malformed, the error raised is
the malformed-numeric one, not the missing-image one. -/
theorem c8_numeric_error_precedes_missing_image (r : RawRequest)
    (_himg : r.image = none)
    (hm : (∃ s, r.box_threshold = some s ∧ pyFloat s = none) ∨
          (∃ s, r.text_threshold = some s ∧ pyFloat s = none)) :
    ∃ f s, decode_request r = .error (.malformedNumeric f s) := by
  rw [decode_request_eq]
  rcases hb : parseThreshold "box_threshold" r.box_threshold (3 / 10) with e | bt
  · obtain ⟨s, _, _, he⟩ := parseThreshold_error_eq hb
    exact ⟨"box_threshold", s, by rw [he]⟩
  · rcases hm with ⟨s, hs, hps⟩ | ⟨s, hs, hps⟩
    · rw [parseThreshold_malformed hs hps] at hb
      cases hb
    · rw [parseThreshold_malformed hs hps]
      exact ⟨"text_threshold", s, rfl⟩

/-- C8, witness: image absent and `box_threshold = "abc"` yields the
numeric parse failure. -/
theorem c8_numeric_error_precedes_missing_image_witness :
    ∃ f s, decode_request ⟨none, some "abc", none, none, none⟩
      = .error (.malformedNumeric f s) :=
  c8_numeric_error_precedes_missing_image ⟨none, some "abc", none, none, none⟩ rfl
    (Or.inl ⟨"abc", rfl, by decide⟩)

/-! ## Claims about predict -/

/-- After a `predict` call the handle's recorded variant is the
request's `sam_type`: either it already was, or the rebuild set it. -/
theorem predict_handle_sam_type (c : Collab) (st : ModelHandle) (inputs : PredictionRequest) :
    (predict c st inputs).1.sam_type = inputs.sam_type := by
  unfold predict
  by_cases h : inputs.sam_type = st.sam_type <;> simp [h, ModelHandle.build_model]

/-- The rebuild log of one `predict` call: one `build_model` call iff the
requested variant differs. -/
theorem predict_log_eq (c : Collab) (st : ModelHandle) (inputs : PredictionRequest) :
    (predict c st inputs).2.1 = if inputs.sam_type ≠ st.sam_type then [inputs.sam_type] else [] :=
  rfl

/-- The result of `predict` is `predictBody` run against the request's
variant (the handle's variant after the check equals the request's). -/
theorem predict_result_eq (c : Collab) (st : ModelHandle) (inputs : PredictionRequest) :
    (predict c st inputs).2.2 = predictBody c inputs.sam_type inputs := by
  unfold predict
  by_cases h : inputs.sam_type = st.sam_type <;> simp [h, ModelHandle.build_model]

/-- C1: over any sequence of `predict` calls, the number of `build_model`
calls equals the number of variant switches (exactly one rebuild per
switch), and the handle's recorded variant ends equal to the most
recently built variant (or stays the initial one when no rebuild
happened). -/
theorem c1_one_rebuild_per_switch (c : Collab) (st : ModelHandle)
    (reqs : List PredictionRequest) :
    (run c st reqs).2.length = switchCount st.sam_type (reqs.map (·.sam_type)) ∧
    (run c st reqs).1.sam_type = ((run c st reqs).2).getLastD st.sam_type := by
  induction reqs generalizing st with
  | nil => simp [run, switchCount]
  | cons r rs ih =>
    obtain ⟨ihl, ihv⟩ := ih (predict c st r).1
    have hv : (predict c st r).1.sam_type = r.sam_type := predict_handle_sam_type c st r
    constructor
    · show ((predict c st r).2.1 ++ (run c (predict c st r).1 rs).2).length = _
      rw [List.length_append, ihl, hv, predict_log_eq]
      simp only [List.map_cons, switchCount]
      by_cases h : r.sam_type = st.sam_type <;> simp [h]
    · show (run c (predict c st r).1 rs).1.sam_type
        = ((predict c st r).2.1 ++ (run c (predict c st r).1 rs).2).getLastD st.sam_type
      rw [predict_log_eq]
      by_cases h : r.sam_type = st.sam_type
      · simp only [h, ne_eq, not_true_eq_false, if_neg, ite_false, List.nil_append]
        rw [ihv, hv, h]
      · simp only [ne_eq, h, not_false_eq_true, if_pos, ite_true, List.cons_append,
          List.nil_append, List.getLastD_cons]
        rw [ihv, hv]

/-- C9: a request with `sam_type` absent (`None`) against a handle whose
variant is a string differs from it, so `predict` performs exactly one
rebuild with `None` as the variant argument, and the recorded variant
becomes `None`. -/
theorem c9_none_sam_type_triggers_rebuild (c : Collab) (st : ModelHandle)
    (inputs : PredictionRequest) (s : String)
    (h1 : inputs.sam_type = none) (h2 : st.sam_type = some s) :
    (predict c st inputs).2.1 = [none] ∧ (predict c st inputs).1.sam_type = none := by
  constructor
  · rw [predict_log_eq, h1, h2]
    simp
  · rw [predict_handle_sam_type, h1]

/-- C9, witness: a `None` `sam_type` against the freshly set-up handle. -/
theorem c9_none_sam_type_triggers_rebuild_witness :
    (predict collabOk setupHandle pr0).2.1 = [none] ∧
      (predict collabOk setupHandle pr0).1.sam_type = none :=
  c9_none_sam_type_triggers_rebuild collabOk setupHandle pr0 "sam2.1_hiera_small" rfl rfl

/-- C4: `predict` normalizes the model's `boxes` field — a numpy array
passes through unchanged, a torch tensor is converted to a plain array
with the same numeric content, and any other type raises the
`TypeError`. -/
theorem c4_predict_normalizes_boxes (c : Collab) (st : ModelHandle)
    (inputs : PredictionRequest) (img : PILImage)
    (hdec : c.dec inputs.image_bytes = .ok img) :
    (∀ a, (c.model inputs.sam_type img inputs.text_prompt inputs.box_threshold
        inputs.text_threshold).boxes = .npArray a →
      (predict c st inputs).2.2 = .ok ⟨a⟩) ∧
    (∀ t, (c.model inputs.sam_type img inputs.text_prompt inputs.box_threshold
        inputs.text_threshold).boxes = .torchTensor t →
      (predict c st inputs).2.2 = .ok ⟨t⟩) ∧
    (∀ s, (c.model inputs.sam_type img inputs.text_prompt inputs.box_threshold
        inputs.text_threshold).boxes = .other s →
      (predict c st inputs).2.2
        = .error (.typeError
            "Unexpected type for boxes. Expected numpy array or torch tensor.")) := by
  refine ⟨fun a hb => ?_, fun t hb => ?_, fun s hb => ?_⟩
  · rw [predict_result_eq]
    simp only [predictBody, hdec, hb, normalize_boxes]
    split <;> rfl
  · rw [predict_result_eq]
    simp only [predictBody, hdec, hb, normalize_boxes]
    split <;> rfl
  · rw [predict_result_eq]
    simp only [predictBody, hdec, hb, normalize_boxes]

/-- C4, witness: with a collaborator answering a numpy array, `predict`
passes it through. -/
theorem c4_predict_normalizes_boxes_witness :
    (predict collabOk setupHandle pr0).2.2 = .ok ⟨[]⟩ :=
  (c4_predict_normalizes_boxes collabOk setupHandle pr0 ⟨0⟩ rfl).1 [] rfl

/-- C5: a model result with zero masks is a success path — `predict`
returns the (possibly empty) normalized boxes array and does not
raise. -/
theorem c5_zero_masks_is_success (c : Collab) (st : ModelHandle)
    (inputs : PredictionRequest) (img : PILImage) (a : List Box)
    (hdec : c.dec inputs.image_bytes = .ok img)
    (hmask : (c.model inputs.sam_type img inputs.text_prompt inputs.box_threshold
        inputs.text_threshold).masks = [])
    (hnorm : normalize_boxes (c.model inputs.sam_type img inputs.text_prompt
        inputs.box_threshold inputs.text_threshold).boxes = .ok a) :
    (predict c st inputs).2.2 = .ok ⟨a⟩ := by
  rw [predict_result_eq]
  simp only [predictBody, hdec, hnorm, hmask]
  simp

/-- C5, witness: zero masks and an empty numpy boxes array. -/
theorem c5_zero_masks_is_success_witness :
    (predict collabOk setupHandle pr0).2.2 = .ok ⟨[]⟩ :=
  c5_zero_masks_is_success collabOk setupHandle pr0 ⟨0⟩ [] rfl rfl rfl

/-- `normalize_boxes` can only fail with the `TypeError`. -/
theorem normalize_boxes_error_eq {b : BoxesVal} {e : PredictError}
    (h : normalize_boxes b = .error e) : ∃ m, e = .typeError m := by
  cases b with
  | npArray rows => simp [normalize_boxes] at h
  | torchTensor rows => simp [normalize_boxes] at h
  | other d =>
    simp [normalize_boxes] at h
    exact ⟨_, h.symm⟩

/-- C7: when the uploaded bytes fail to decode, `predict` raises
`Invalid image data: ...` carrying the underlying decoder message; when
they decode, that error branch is never taken. -/
theorem c7_invalid_image_wraps_decode_failure (c : Collab) (st : ModelHandle)
    (inputs : PredictionRequest) :
    (∀ e, c.dec inputs.image_bytes = .error e →
      (predict c st inputs).2.2 = .error (.invalidImage ("Invalid image data: " ++ e))) ∧
    (∀ img, c.dec inputs.image_bytes = .ok img →
      ∀ m, (predict c st inputs).2.2 ≠ .error (.invalidImage m)) := by
  constructor
  · intro e hdec
    rw [predict_result_eq]
    simp only [predictBody, hdec]
  · intro img hdec m
    rw [predict_result_eq]
    simp only [predictBody, hdec]
    rcases hN : normalize_boxes (c.model inputs.sam_type img inputs.text_prompt
        inputs.box_threshold inputs.text_threshold).boxes with err | boxes <;>
      simp only [hN]
    · obtain ⟨mm, rfl⟩ := normalize_boxes_error_eq hN
      simp
    · split <;> simp

/-- C7, witness: a failing decoder produces the wrapped message, at a
concrete request. -/
theorem c7_invalid_image_wraps_decode_failure_witness :
    (predict collabBadImage setupHandle pr0).2.2
      = .error (.invalidImage "Invalid image data: cannot identify image file") :=
  (c7_invalid_image_wraps_decode_failure collabBadImage setupHandle pr0).1
    "cannot identify image file" rfl

/-- C10: the zero-masks branch is observationally equivalent to the
non-empty branch — `predict`'s result is exactly the mask-check-free
body, so the `len(results["masks"])` test never affects the returned
value. -/
theorem c10_mask_check_is_dead (c : Collab) (variant : Option String)
    (inputs : PredictionRequest) (st : ModelHandle) :
    predictBody c variant inputs = predictBodyNoMaskCheck c variant inputs ∧
    (predict c st inputs).2.2 = predictBodyNoMaskCheck c inputs.sam_type inputs := by
  have hbody : ∀ v, predictBody c v inputs = predictBodyNoMaskCheck c v inputs := by
    intro v
    simp only [predictBody, predictBodyNoMaskCheck]
    rcases hd : c.dec inputs.image_bytes with e | img <;> simp only [hd]
    rcases hN : normalize_boxes (c.model v img inputs.text_prompt inputs.box_threshold
        inputs.text_threshold).boxes with err | boxes <;> simp only [hN]
    split <;> rfl
  exact ⟨hbody variant, by rw [predict_result_eq, hbody]⟩

/-! ## Claims about encode_response: the npy round-trip -/

/-- Stripping a literal prefix from a list that starts with it succeeds
with the remainder. -/
theorem stripPre_append (pre rest : List Nat) : stripPre pre (pre ++ rest) = some rest := by
  have h : pre.isPrefixOf (pre ++ rest) = true := by
    rw [List.isPrefixOf_iff_prefix]
    exact List.prefix_append pre rest
  simp [stripPre, h]

/-- `takeWhile`/`dropWhile` split an append exactly when the first part
all satisfies the predicate and the second part does not start with a
satisfying element. -/
theorem takeWhile_append_split (p : Nat → Bool) (l1 l2 : List Nat)
    (h1 : ∀ x ∈ l1, p x = true) (h2 : ∀ b, l2.head? = some b → p b = false) :
    (l1 ++ l2).takeWhile p = l1 ∧ (l1 ++ l2).dropWhile p = l2 := by
  induction l1 with
  | nil =>
    cases l2 with
    | nil => simp
    | cons b bs =>
      have hb : p b = false := h2 b rfl
      simp [List.takeWhile_cons, List.dropWhile_cons, hb]
  | cons x xs ih =>
    have hx : p x = true := h1 x (List.mem_cons_self x xs)
    obtain ⟨iht, ihd⟩ := ih fun y hy => h1 y (List.mem_cons_of_mem x hy)
    simp [List.takeWhile_cons, List.dropWhile_cons, hx, iht, ihd]

/-- With enough fuel, `digitsRev` computes `Nat.digits 10`. -/
theorem digitsRev_eq (fuel n : Nat) (h : n ≤ fuel) : digitsRev fuel n = Nat.digits 10 n := by
  induction fuel generalizing n with
  | zero =>
    have hn : n = 0 := Nat.le_zero.mp h
    subst hn
    simp [digitsRev]
  | succ fuel ih =>
    by_cases hn : n = 0
    · subst hn
      simp [digitsRev]
    · have hpos : 0 < n := Nat.pos_of_ne_zero hn
      have hdiv : n / 10 ≤ fuel := by
        have := Nat.div_lt_self hpos (by norm_num : 1 < 10)
        omega
      rw [show digitsRev (fuel + 1) n = n % 10 :: digitsRev fuel (n / 10) by
        simp [digitsRev, hn]]
      rw [ih (n / 10) hdiv, Nat.digits_def' (by norm_num : 1 < 10) hpos]

/-- `renderNat` in terms of `Nat.digits`. -/
theorem renderNat_eq (n : Nat) :
    renderNat n = if n = 0 then [48] else ((Nat.digits 10 n).map (· + 48)).reverse := by
  rw [renderNat, digitsRev_eq n n le_rfl]

/-- Every byte of a rendered decimal is a digit byte. -/
theorem renderNat_digits (n : Nat) : ∀ x ∈ renderNat n, isDigitByte x = true := by
  intro x hx
  rw [renderNat_eq] at hx
  by_cases h : n = 0
  · simp [h] at hx
    subst hx
    rfl
  · simp [h, List.mem_reverse, List.mem_map] at hx
    obtain ⟨d, hd, rfl⟩ := hx
    have hlt : d < 10 := Nat.digits_lt_base (by norm_num) hd
    simp [isDigitByte]
    omega

/-- A rendered decimal is never empty. -/
theorem renderNat_ne_nil (n : Nat) : renderNat n ≠ [] := by
  rw [renderNat_eq]
  by_cases h : n = 0
  · simp [h]
  · simp [h, Nat.digits_ne_nil_iff_ne_zero]

/-- A rendered decimal is never empty (`isEmpty` form). -/
theorem renderNat_isEmpty (n : Nat) : (renderNat n).isEmpty = false := by
  cases hr : renderNat n with
  | nil => exact absurd hr (renderNat_ne_nil n)
  | cons a l => rfl

/-- Parsing undoes decimal rendering. -/
theorem parseDigits_renderNat (n : Nat) : parseDigits (renderNat n) = n := by
  rw [renderNat_eq]
  unfold parseDigits
  by_cases h : n = 0
  · simp [h, Nat.ofDigits]
  · simp only [h, if_neg, ite_false, List.map_reverse, List.map_map, List.reverse_reverse]
    have hmap : List.map ((fun x => x - 48) ∘ fun d => d + 48) (Nat.digits 10 n)
        = Nat.digits 10 n := by
      rw [show ((fun x => x - 48) ∘ fun d : Nat => d + 48) = id by funext d; simp]
      exact List.map_id _
    rw [hmap, Nat.ofDigits_digits]

/-- Dropping the space padding before the final newline. -/
theorem dropWhile_pad (k : Nat) :
    (List.replicate k 32 ++ [10]).dropWhile isSpaceByte = [10] := by
  induction k with
  | zero => simp [List.dropWhile_cons, isSpaceByte]
  | succ k ih => simp [List.replicate_succ, List.dropWhile_cons, isSpaceByte, ih]

/-- `parseDescr` recognizes the `<f4` descr. -/
theorem parseDescr_f4 (Y : List Nat) :
    parseDescr (Dtype.descrBytes .f4 ++ Y) = some (Dtype.f4, Y) := by
  unfold parseDescr
  rw [stripPre_append]

/-- `parseDescr` recognizes the `<f8` descr. -/
theorem parseDescr_f8 (Y : List Nat) :
    parseDescr (Dtype.descrBytes .f8 ++ Y) = some (Dtype.f8, Y) := by
  unfold parseDescr
  rw [show stripPre (Dtype.descrBytes .f4) (Dtype.descrBytes .f8 ++ Y) = none from rfl,
    stripPre_append]

/-- Parsing the emitted header (dict literal plus space padding and the
final newline) recovers the dtype and the row count. -/
theorem parseHeader_header (d : Dtype) (n k : Nat) :
    parseHeader (headerBody d n ++ (List.replicate k 32 ++ [10])) = some (d, n) := by
  obtain ⟨ht, hdw⟩ := takeWhile_append_split isDigitByte (renderNat n)
      (strBytes ", 4), \x7d" ++ (List.replicate k 32 ++ [10]))
      (renderNat_digits n)
      (fun b hb => by
        have hh : (strBytes ", 4), \x7d"
            ++ (List.replicate k 32 ++ [10])).head? = some 44 := rfl
        rw [hh] at hb
        cases hb
        rfl)
  cases d with
  | f4 =>
    simp only [parseHeader, headerBody, List.append_assoc, Option.bind_eq_bind,
      Option.some_bind, stripPre_append, parseDescr_f4, ht, hdw, dropWhile_pad,
      parseDigits_renderNat, renderNat_isEmpty]
    rfl
  | f8 =>
    simp only [parseHeader, headerBody, List.append_assoc, Option.bind_eq_bind,
      Option.some_bind, stripPre_append, parseDescr_f8, ht, hdw, dropWhile_pad,
      parseDigits_renderNat, renderNat_isEmpty]
    rfl

/-- Loading a version-1.0 save whose header parses and whose element
bytes match the parsed shape recovers the array. -/
theorem npLoad_v1 (d : Dtype) (n : Nat) (data H : List Nat)
    (hph : parseHeader H = some (d, n))
    (hlt : H.length < 2 ^ 16)
    (hdata : data.length = n * 4 * d.itemsize) :
    npLoad (npyMagic ++ ([1, 0] ++ (le2 H.length ++ (H ++ data)))) = some ⟨d, n, data⟩ := by
  have hL : H.length % 256 + 256 * (H.length / 256 % 256) = H.length := by omega
  have hlen : ¬((H ++ data).length < H.length) := by
    rw [List.length_append]
    omega
  simp only [npLoad, le2, Option.bind_eq_bind, stripPre_append, Option.some_bind,
    List.cons_append, List.nil_append]
  rw [hL, if_neg hlen, List.take_left, List.drop_left, hph, Option.some_bind,
    if_pos hdata]

/-- Loading a version-2.0 save whose header parses and whose element
bytes match the parsed shape recovers the array. -/
theorem npLoad_v2 (d : Dtype) (n : Nat) (data H : List Nat)
    (hph : parseHeader H = some (d, n))
    (hlt : H.length < 2 ^ 32)
    (hdata : data.length = n * 4 * d.itemsize) :
    npLoad (npyMagic ++ ([2, 0] ++ (le4 H.length ++ (H ++ data)))) = some ⟨d, n, data⟩ := by
  have hL : H.length % 256 + 256 * (H.length / 256 % 256)
      + 256 ^ 2 * (H.length / 256 ^ 2 % 256) + 256 ^ 3 * (H.length / 256 ^ 3 % 256)
      = H.length := by omega
  have hlen : ¬((H ++ data).length < H.length) := by
    rw [List.length_append]
    omega
  simp only [npLoad, le4, Option.bind_eq_bind, stripPre_append, Option.some_bind,
    List.cons_append, List.nil_append]
  rw [hL, if_neg hlen, List.take_left, List.drop_left, hph, Option.some_bind,
    if_pos hdata]

/-- C6: `encode_response` round-trips — whenever it produces a response
body, the standard reader (`npLoad`) recovers exactly the array that was
passed in: same dtype descriptor, same (N, 4) shape, same element bytes. -/
theorem c6_encode_roundtrip (a : NpyArray) (hwf : a.WF) (body : List Nat)
    (h : encode_response a = .ok body) :
    npLoad body = some a := by
  obtain ⟨d, n, data⟩ := a
  have hwf' : data.length = n * 4 * d.itemsize := hwf
  simp only [encode_response, npSave] at h
  by_cases h1 : (headerBody d n
      ++ List.replicate (padTo64 10 (headerBody d n).length) 32 ++ [10]).length < 2 ^ 16
  · rw [if_pos h1] at h
    dsimp only at h
    injection h with hb
    subst hb
    have hph : parseHeader (headerBody d n
        ++ List.replicate (padTo64 10 (headerBody d n).length) 32 ++ [10]) = some (d, n) := by
      rw [List.append_assoc]
      exact parseHeader_header d n _
    simpa only [List.append_assoc] using npLoad_v1 d n data _ hph h1 hwf'
  · rw [if_neg h1] at h
    by_cases h2 : (headerBody d n
        ++ List.replicate (padTo64 12 (headerBody d n).length) 32 ++ [10]).length < 2 ^ 32
    · rw [if_pos h2] at h
      dsimp only at h
      injection h with hb
      subst hb
      have hph : parseHeader (headerBody d n
          ++ List.replicate (padTo64 12 (headerBody d n).length) 32 ++ [10]) = some (d, n) := by
        rw [List.append_assoc]
        exact parseHeader_header d n _
      simpa only [List.append_assoc] using npLoad_v2 d n data _ hph h2 hwf'
    · rw [if_neg h2] at h
      simp at h

set_option maxRecDepth 4000 in
/-- C6, witness: the concrete array round-trips through
`encode_response` and `npLoad`. -/
theorem c6_encode_roundtrip_witness :
    npLoad ((encode_response npyA0).toOption.getD []) = some npyA0 :=
  c6_encode_roundtrip npyA0 rfl ((encode_response npyA0).toOption.getD []) (by rfl)

end LangSam
